import Mathlib

/-!
Shallow embedding of the shiv ECS core (entity allocator, per-component
storages, change ticks, access sets, query candidate sets, events), translated
from the Rust sources, together with theorems settling the frozen claims.

Machine integers (`u32`) are modelled as `Nat` with explicit wrapping
arithmetic modulo `2^32`.
-/

namespace Shiv

/-- Modulus of `u32` arithmetic. -/
def U32 : Nat := 4294967296

/-- Wrapping subtraction on `u32`, i.e. `a.wrapping_sub(b)`. -/
def u32Sub (a b : Nat) : Nat := (a % U32 + (U32 - b % U32)) % U32

/-- Constant `CHECK_TICK_THRESHOLD` from `change_detection.rs`. -/
def CHECK_TICK_THRESHOLD : Nat := 518400000

/-- Constant `MAX_CHANGE_AGE = u32::MAX - (2 * CHECK_TICK_THRESHOLD - 1)` from
`change_detection.rs`. -/
def MAX_CHANGE_AGE : Nat := 4294967295 - (2 * CHECK_TICK_THRESHOLD - 1)

/-- Rust `ChangeTicks` from `change_detection.rs`: per-cell `(added, changed)` ticks. -/
structure ChangeTicks where
  added : Nat
  changed : Nat
deriving DecidableEq, Repr

namespace ChangeTicks

/-- Rust `ChangeTicks::new(change_tick)`. -/
def new (changeTick : Nat) : ChangeTicks := ⟨changeTick, changeTick⟩

/-- Rust `ChangeTicks::set_changed(change_tick)`. -/
def setChanged (t : ChangeTicks) (changeTick : Nat) : ChangeTicks :=
  { t with changed := changeTick }

/-- Rust `ChangeTicks::is_added(last_change_tick, change_tick)`. -/
def isAdded (t : ChangeTicks) (lastChangeTick changeTick : Nat) : Bool :=
  let ticksSinceInsert := min (u32Sub changeTick t.added) MAX_CHANGE_AGE
  let ticksSinceSystem := min (u32Sub changeTick lastChangeTick) MAX_CHANGE_AGE
  decide (ticksSinceSystem > ticksSinceInsert)

/-- Rust `ChangeTicks::is_changed(last_change_tick, change_tick)`. -/
def isChanged (t : ChangeTicks) (lastChangeTick changeTick : Nat) : Bool :=
  let ticksSinceChange := min (u32Sub changeTick t.changed) MAX_CHANGE_AGE
  let ticksSinceSystem := min (u32Sub changeTick lastChangeTick) MAX_CHANGE_AGE
  decide (ticksSinceSystem > ticksSinceChange)

/-- Rust `ChangeTicks::check_tick(tick, change_tick)`: if `age > MAX_CHANGE_AGE`
the stored tick is overwritten with `change_tick` itself. -/
def checkTick (tick changeTick : Nat) : Nat :=
  let age := u32Sub changeTick tick
  if age > MAX_CHANGE_AGE then changeTick else tick

/-- Rust `ChangeTicks::check_ticks(change_tick)`: runs `check_tick` on both fields. -/
def checkTicks (t : ChangeTicks) (changeTick : Nat) : ChangeTicks :=
  ⟨checkTick t.added changeTick, checkTick t.changed changeTick⟩

end ChangeTicks

/-- The `Mut` smart reference from `change_detection.rs` together with the
`Ticks` bookkeeping it carries (`last_change_tick` / `change_tick`). -/
structure MutRef (T : Type) where
  value : T
  ticks : ChangeTicks
  lastChangeTick : Nat
  changeTick : Nat
deriving Repr

namespace MutRef

/-- Rust `Ticks::set_changed` as invoked through a `Mut` (`Mut::set_changed`). -/
def markChanged (m : MutRef T) : MutRef T :=
  { m with ticks := m.ticks.setChanged m.changeTick }

/-- Rust `Mut::set(value)`: marks changed only when `*self.value != value`, then
writes the value. -/
def set [DecidableEq T] (m : MutRef T) (v : T) : MutRef T :=
  let m2 := if m.value ≠ v then m.markChanged else m
  { m2 with value := v }

/-- Rust `<Mut as DerefMut>::deref_mut`: calls `Self::set_changed(self)` and hands
out the inner reference. -/
def derefMut (m : MutRef T) : MutRef T := m.markChanged

end MutRef

/-- Rust `Column` from `storage/column.rs`: component data paired with a parallel
tick vector. Component bytes are modelled by an abstract element type. -/
structure Column (α : Type) where
  data : List α
  ticks : List ChangeTicks
deriving DecidableEq, Repr

/-- Rust `Vec::swap_remove(i)`: move the last element into slot `i` and pop. -/
def listSwapRemove (l : List α) (i : Nat) : List α :=
  match l.getLast? with
  | none => []
  | some last => (l.set i last).dropLast

namespace Column

/-- Rust `Column::len`. -/
def len (c : Column α) : Nat := c.data.length

/-- Rust `Column::push(data, change_ticks)`. -/
def push (c : Column α) (v : α) (t : ChangeTicks) : Column α :=
  ⟨c.data ++ [v], c.ticks ++ [t]⟩

/-- Rust `Column::replace(index, data, change_tick)`: overwrite the cell and call
`set_changed(change_tick)` on its ticks. -/
def replace (c : Column α) (i : Nat) (v : α) (changeTick : Nat) : Column α :=
  ⟨c.data.set i v,
    match c.ticks.get? i with
    | some t => c.ticks.set i (t.setChanged changeTick)
    | none => c.ticks⟩

/-- Rust `Column::swap_remove_unchecked` / `swap_remove_and_drop_unchecked`: both
swap-remove row `i` from the data and the tick vectors. -/
def swapRemove (c : Column α) (i : Nat) : Column α :=
  ⟨listSwapRemove c.data i, listSwapRemove c.ticks i⟩

/-- Rust `Column::get_data(index)`. -/
def getData (c : Column α) (i : Nat) : Option α := c.data.get? i

/-- Rust `Column::check_change_ticks(change_tick)`: walks every tick record. -/
def checkChangeTicks (c : Column α) (changeTick : Nat) : Column α :=
  { c with ticks := c.ticks.map (fun t => t.checkTicks changeTick) }

end Column

/-- Rust `SparseArray<u32>` (`storage/sparse.rs`) as a list of optional slots. -/
abbrev SparseArr : Type := List (Option Nat)

/-- Rust `SparseArray::get(index)`. -/
def saGet (l : SparseArr) (i : Nat) : Option Nat :=
  (List.get? l i).bind id

/-- Rust `SparseArray::contains(index)`. -/
def saContains (l : SparseArr) (i : Nat) : Bool := (saGet l i).isSome

/-- Rust `SparseArray::insert(index, value)`: resize with empty slots on demand,
then fill slot `index`. -/
def saInsert (l : SparseArr) (i : Nat) (v : Nat) : SparseArr :=
  let l2 : List (Option Nat) :=
    if i ≥ List.length l then l ++ List.replicate (i + 1 - List.length l) none else l
  l2.set i (some v)

/-- Rust `SparseArray::remove(index)`: `take` the slot, returning its content. -/
def saRemove (l : SparseArr) (i : Nat) : Option Nat × SparseArr :=
  match List.get? l i with
  | none => (none, l)
  | some o => (o, List.set l i none)

/-- Entity handle: `(index, generation)` (`world/entity.rs`). -/
structure Entity where
  index : Nat
  generation : Nat
deriving DecidableEq, Repr

/-- Rust `DenseStorage` from `storage/dense.rs`: a column, the `row -> entity index`
array and the `entity index -> row` sparse array. -/
structure DenseStorage (α : Type) where
  dense : Column α
  entities : List Nat
  sparse : SparseArr
deriving DecidableEq, Repr

namespace DenseStorage

/-- Fresh `DenseStorage`. -/
def empty : DenseStorage α := ⟨⟨[], []⟩, [], []⟩

/-- Rust `DenseStorage::swap(index)`: swap-remove the row-to-entity entry and, when
a row was relocated into `index`, repair the relocated entity's sparse slot.
Called after the column has already shrunk, so `self.dense.len()` is the new
length. -/
def swapFix (s : DenseStorage α) (index : Nat) : DenseStorage α :=
  let ents := listSwapRemove s.entities index
  if index ≠ s.dense.len then
    match List.get? ents index with
    | some swapped => ⟨s.dense, ents, s.sparse.set swapped (some index)⟩
    | none => ⟨s.dense, ents, s.sparse⟩
  else
    ⟨s.dense, ents, s.sparse⟩

/-- Rust `DenseStorage::insert(entity, data, change_tick)`. -/
def insert (s : DenseStorage α) (e : Entity) (v : α) (changeTick : Nat) :
    DenseStorage α :=
  match saGet s.sparse e.index with
  | some i => { s with dense := s.dense.replace i v changeTick }
  | none =>
    let denseIndex := s.dense.len
    { s with
      dense := s.dense.push v (ChangeTicks.new changeTick),
      sparse := saInsert s.sparse e.index denseIndex,
      entities := s.entities ++ [e.index] }

/-- Rust `DenseStorage::remove_and_drop(entity)`. -/
def removeAndDrop (s : DenseStorage α) (e : Entity) : DenseStorage α :=
  match saRemove s.sparse e.index with
  | (some i, sp) =>
      DenseStorage.swapFix { s with sparse := sp, dense := s.dense.swapRemove i } i
  | (none, _) => s

/-- Rust `DenseStorage::remove_unchecked(entity, out)`: same state transition as
`remove_and_drop`, additionally handing the removed value out. -/
def removeUnchecked (s : DenseStorage α) (e : Entity) :
    Option α × DenseStorage α :=
  match saRemove s.sparse e.index with
  | (some i, sp) =>
      (s.dense.getData i,
        DenseStorage.swapFix { s with sparse := sp, dense := s.dense.swapRemove i } i)
  | (none, _) => (none, s)

/-- Rust `DenseStorage::contains(entity)`. -/
def contains (s : DenseStorage α) (e : Entity) : Bool := saContains s.sparse e.index

/-- Rust `DenseStorage::get(entity)`. -/
def get (s : DenseStorage α) (e : Entity) : Option α :=
  (saGet s.sparse e.index).bind (fun i => s.dense.getData i)

end DenseStorage

/-- Rust `SparseStorage` from `storage/sparse.rs`: a column and the
`entity index -> row` sparse array, with no row-to-entity array. -/
structure SparseStorage (α : Type) where
  dense : Column α
  sparse : SparseArr
deriving DecidableEq, Repr

namespace SparseStorage

/-- Fresh `SparseStorage`. -/
def empty : SparseStorage α := ⟨⟨[], []⟩, []⟩

/-- Rust `SparseStorage::insert(entity, component, change_tick)`. -/
def insert (s : SparseStorage α) (e : Entity) (v : α) (changeTick : Nat) :
    SparseStorage α :=
  match saGet s.sparse e.index with
  | some i => { s with dense := s.dense.replace i v changeTick }
  | none =>
    let denseIndex := s.dense.len
    { s with
      dense := s.dense.push v (ChangeTicks.new changeTick),
      sparse := saInsert s.sparse e.index denseIndex }

/-- Rust `SparseStorage::remove_and_drop(entity)`: swap-removes the row but, unlike
the dense storage, has no row-to-entity array and patches no sparse slot. -/
def removeAndDrop (s : SparseStorage α) (e : Entity) : SparseStorage α :=
  match saRemove s.sparse e.index with
  | (some i, sp) => { s with sparse := sp, dense := s.dense.swapRemove i }
  | (none, _) => s

/-- Rust `SparseStorage::remove_unchecked(entity, component)`: same state
transition, handing the removed value out. -/
def removeUnchecked (s : SparseStorage α) (e : Entity) :
    Option α × SparseStorage α :=
  match saRemove s.sparse e.index with
  | (some i, sp) =>
      (s.dense.getData i, { s with sparse := sp, dense := s.dense.swapRemove i })
  | (none, _) => (none, s)

/-- Rust `SparseStorage::contains(entity)`. -/
def contains (s : SparseStorage α) (e : Entity) : Bool := saContains s.sparse e.index

/-- Rust `SparseStorage::get(entity)`. -/
def get (s : SparseStorage α) (e : Entity) : Option α :=
  (saGet s.sparse e.index).bind (fun i => s.dense.getData i)

end SparseStorage

/-- Rust `EntityMeta` from `world/entity.rs`: stored generation and free flag.
The derived Rust `Default` is `(generation: 0, is_empty: false)`. -/
structure EntityMeta where
  generation : Nat
  isEmpty : Bool
deriving DecidableEq, Repr

instance : Inhabited EntityMeta := ⟨⟨0, false⟩⟩

/-- Rust `Entities` from `world/entity.rs`: generational index allocator. The
atomic `free_cursor` is an `isize`, modelled as `Int`. -/
structure Entities where
  meta : List EntityMeta
  idSet : Finset Nat
  pending : List Nat
  freeCursor : Int
  len : Nat
deriving DecidableEq

namespace Entities

/-- Rust `Entities::default()`. -/
def empty : Entities := ⟨[], ∅, [], 0, 0⟩

/-- Rust `Entities::contains(entity)`: generation-aware liveness check. -/
def containsE (s : Entities) (e : Entity) : Bool :=
  match List.get? s.meta e.index with
  | some m => decide (m.generation = e.generation) && !m.isEmpty
  | none => false

/-- Marks every index of `drained` live: `meta[i].is_empty = false` and
`entity_id_set.insert(i)` (the drain loop at the end of `Entities::flush`). -/
def drainPending (meta : List EntityMeta) (idSet : Finset Nat) (drained : List Nat) :
    List EntityMeta × Finset Nat :=
  drained.foldl
    (fun acc i =>
      (acc.1.set i ⟨((List.get? acc.1 i).getD default).generation, false⟩,
        insert i acc.2))
    (meta, idSet)

/-- Rust `Entities::flush()`: reconcile reservations. When `free_cursor` already
equals `pending.len()` this is a no-op; a non-negative cursor reclaims the
free-list suffix `pending[cursor..]`; a negative cursor first materialises the
synthesized-past-end reservations as fresh live metadata. -/
def flush (s : Entities) : Entities :=
  if s.freeCursor = (s.pending.length : Int) then s
  else if s.freeCursor ≥ 0 then
    let nfc := s.freeCursor.toNat
    let drained := s.pending.drop nfc
    let (meta2, idSet2) := drainPending s.meta s.idSet drained
    ⟨meta2, idSet2, s.pending.take nfc, s.freeCursor,
      (s.len + (s.pending.length - nfc)) % U32⟩
  else
    let k := (-s.freeCursor).toNat
    let oldLen := s.meta.length
    let meta1 := s.meta ++ List.replicate k (⟨0, false⟩ : EntityMeta)
    let idSet1 := s.idSet ∪ (Finset.range (oldLen + k) \ Finset.range oldLen)
    let (meta2, idSet2) := drainPending meta1 idSet1 s.pending
    ⟨meta2, idSet2, [], 0, (s.len + k + s.pending.length) % U32⟩

/-- Body of `Entities::alloc()` after the initial flush: pop a free slot
(from the end of `pending`) or append a fresh one. -/
def allocInner (s : Entities) : Entity × Entities :=
  let len2 := (s.len + 1) % U32
  match s.pending.getLast? with
  | some index =>
    let pending2 := s.pending.dropLast
    let m := (List.get? s.meta index).getD default
    let meta2 := s.meta.set index ⟨m.generation, false⟩
    (⟨index, m.generation⟩,
      ⟨meta2, insert index s.idSet, pending2, (pending2.length : Int), len2⟩)
  | none =>
    let index := s.meta.length
    (⟨index, 0⟩,
      ⟨s.meta ++ [⟨0, false⟩], insert index s.idSet, s.pending, s.freeCursor, len2⟩)

/-- Rust `Entities::alloc()`: flush, then run the allocation body. -/
def alloc (s0 : Entities) : Entity × Entities := allocInner s0.flush

/-- Body of `Entities::free(entity)` after the initial flush: check only that
the stored generation matches (there is no check of the `is_empty` flag); on a
match, bump the generation, mark the slot empty, remove the index from the
live set, push it onto `pending` and sync the cursor. -/
def freeInner (s : Entities) (e : Entity) : Bool × Entities :=
  match List.get? s.meta e.index with
  | none => (false, s)
  | some m =>
    if m.generation ≠ e.generation then (false, s)
    else
      let pending2 := s.pending ++ [e.index]
      (true,
        ⟨s.meta.set e.index ⟨(m.generation + 1) % U32, true⟩,
          s.idSet.erase e.index, pending2, (pending2.length : Int),
          (s.len + (U32 - 1)) % U32⟩)

/-- Rust `Entities::free(entity)`: flush, then run the free body. -/
def freeE (s0 : Entities) (e : Entity) : Bool × Entities := freeInner s0.flush e

end Entities

/-- World fragment relevant to `World::despawn`: the entity allocator plus the
per-component storage sets (`StorageSets`, holding one `SparseStorage` per
registered component type, per `storage/storage.rs`). -/
structure WorldSt where
  entities : Entities
  storages : List (SparseStorage Nat)
deriving DecidableEq

namespace WorldSt

/-- Rust `World::despawn(entity)`: first `self.storage.remove(entity)` (which calls
`remove_and_drop(entity)` on every per-component storage), then
`self.entities.free(entity)`, whose result is returned. -/
def despawn (w : WorldSt) (e : Entity) : Bool × WorldSt :=
  let storages2 := w.storages.map (fun s => s.removeAndDrop e)
  let (ok, ents) := w.entities.freeE e
  (ok, ⟨ents, storages2⟩)

end WorldSt

/-- Rust `Access<T>` from `system/access.rs`: read/write bitsets over component
ids plus the `read_all` and `entities` flags. Bitsets are modelled as finite
sets of indices. -/
structure AccessS where
  read : Finset Nat
  write : Finset Nat
  readAll : Bool
  entities : Bool
deriving DecidableEq

namespace AccessS

/-- Rust `Access::default()`. -/
def new : AccessS := ⟨∅, ∅, false, false⟩

/-- Rust `Access::add_read(index)`. -/
def addRead (a : AccessS) (i : Nat) : AccessS := { a with read := insert i a.read }

/-- Rust `Access::add_write(index)`: inserts into both `read` and `write`. -/
def addWrite (a : AccessS) (i : Nat) : AccessS :=
  { a with read := insert i a.read, write := insert i a.write }

/-- Rust `Access::read_all()`. -/
def readAllFn (a : AccessS) : AccessS := { a with readAll := true }

/-- Rust `Access::is_compatible(other)`: a `read_all` side short-circuits to
checking that the other side writes nothing; otherwise both write/read
pairs must be disjoint. -/
def isCompatible (a b : AccessS) : Bool :=
  if a.readAll then decide (b.write.card = 0)
  else if b.readAll then decide (a.write.card = 0)
  else decide (a.write ∩ b.read = ∅) && decide (a.read ∩ b.write = ∅)

end AccessS

/-- Rust `FilteredAccess<T>` from `system/access.rs`: an access plus `with` /
`without` filter bitsets. -/
structure FilteredAccessS where
  access : AccessS
  withSet : Finset Nat
  withoutSet : Finset Nat
deriving DecidableEq

namespace FilteredAccessS

/-- Rust `FilteredAccess::compatible(other)`: plain-compatible accesses are
compatible; otherwise both `with ∩ without` intersections must be nonempty. -/
def compatible (a b : FilteredAccessS) : Bool :=
  if a.access.isCompatible b.access then true
  else
    decide ((a.withSet ∩ b.withoutSet).Nonempty) &&
      decide ((a.withoutSet ∩ b.withSet).Nonempty)

end FilteredAccessS

/-- Rust `QueryState::get_entities(world)` from `query/query.rs`: seed from the
first `with` component's entity-id set (or the world's live-entity set when
there is none), intersect the remaining `with` sets, then subtract every
`without` set. `storageIds` gives each component id's entity-id set and
`live` is `world.entities.entity_ids()`. -/
def getEntities (fa : FilteredAccessS) (storageIds : Nat → Finset Nat)
    (live : Finset Nat) : Finset Nat :=
  let seeded : Finset Nat :=
    match fa.withSet.sort (· ≤ ·) with
    | [] => live
    | i0 :: rest => rest.foldl (fun acc i => acc ∩ storageIds i) (storageIds i0)
  (fa.withoutSet.sort (· ≤ ·)).foldl (fun acc i => acc \ storageIds i) seeded

/-- Rust `EventSequence<E>` from `event.rs`: buffered `(EventId, event)` pairs plus
the `start_event_count` annotation. -/
structure EventSeq (E : Type) where
  events : List (Nat × E)
  startEventCount : Nat
deriving DecidableEq, Repr

/-- Rust `Events<E>` from `event.rs`: double-buffered event queue. -/
structure EventsS (E : Type) where
  eventsA : EventSeq E
  eventsB : EventSeq E
  eventCount : Nat
deriving DecidableEq, Repr

namespace EventsS

/-- Rust `Events::default()`. -/
def empty : EventsS E := ⟨⟨[], 0⟩, ⟨[], 0⟩, 0⟩

/-- Rust `Events::send(event)`: append to buffer `b` with id `event_count`, then
bump the count. -/
def send (ev : EventsS E) (e : E) : EventsS E :=
  { ev with
    eventsB := ⟨ev.eventsB.events ++ [(ev.eventCount, e)], ev.eventsB.startEventCount⟩,
    eventCount := ev.eventCount + 1 }

/-- Rust `Events::update()`: swap the buffers, clear the (new) `b` buffer and set
its `start_event_count` to the current `event_count`. -/
def update (ev : EventsS E) : EventsS E :=
  ⟨ev.eventsB, ⟨[], ev.eventCount⟩, ev.eventCount⟩

end EventsS

/-- Sequence of events yielded by `ManualEventReader::iter_with_id(events)`
for a reader whose cursor is `last`: the unread tail of buffer `a` followed by
the unread tail of buffer `b` (`saturating_sub` slicing, out-of-range slices
empty). -/
def readerIter (last : Nat) (ev : EventsS E) : List (Nat × E) :=
  let aIdx := last - ev.eventsA.startEventCount
  let bIdx := last - ev.eventsB.startEventCount
  ev.eventsA.events.drop aIdx ++ ev.eventsB.events.drop bIdx

/-! Spec-side predicates, written from the claims' own words, to be compared
with the functions translated from the source. -/

/-- Predicate written from claim C3's words: `change_tick - tick` is greater
than `change_tick - last_change_tick`, both with wrapping subtraction and
clamped to `MAX_CHANGE_AGE`. -/
abbrev claimTickPredicate (tick lastChangeTick changeTick : Nat) : Prop :=
  min (u32Sub changeTick tick) MAX_CHANGE_AGE >
    min (u32Sub changeTick lastChangeTick) MAX_CHANGE_AGE

/-- Predicate with the two sides of claim C3's inequality swapped:
`change_tick - last_change_tick > change_tick - tick`, both wrapping and
clamped to `MAX_CHANGE_AGE`. -/
abbrev systemOlderPredicate (tick lastChangeTick changeTick : Nat) : Prop :=
  min (u32Sub changeTick lastChangeTick) MAX_CHANGE_AGE >
    min (u32Sub changeTick tick) MAX_CHANGE_AGE

/-- Predicate written from claim C5's words: compatible iff
`A.write ∩ B.read = ∅` and `B.write ∩ A.read = ∅`, except that a side with
`read_all` set facing a side that writes anything is incompatible. -/
abbrev claimCompatible (a b : AccessS) : Prop :=
  (¬ ((a.readAll = true ∧ b.write ≠ ∅) ∨ (b.readAll = true ∧ a.write ≠ ∅))) ∧
    a.write ∩ b.read = ∅ ∧ b.write ∩ a.read = ∅

/-- Characterization of `Access::is_compatible` as the code implements it:
a `read_all` side only requires the other side to write nothing; without
`read_all` both write/read intersections must be empty. -/
abbrev amendedCompatible (a b : AccessS) : Prop :=
  if a.readAll = true then b.write = ∅
  else if b.readAll = true then a.write = ∅
  else a.write ∩ b.read = ∅ ∧ a.read ∩ b.write = ∅

/-- World used for the `despawn` counterexample: entity index 0 is live with
generation 1 (its generation-0 handle was despawned and the index reused), and
the single component storage holds a component in row 0 for index 0. -/
def despawnWorldEx : WorldSt :=
  ⟨⟨[⟨1, false⟩], {0}, [], 0, 1⟩, [⟨⟨[42], [⟨0, 0⟩]⟩, [some 0]⟩]⟩

/-! Theorems. -/

/-- Helper: `List.set` then lookup at the written index. -/
theorem get?_set_self (l : List α) (i : Nat) (a : α) (h : i < l.length) :
    List.get? (l.set i a) i = some a := by
  simp [List.get?_set_eq, h]

/-- Helper: `Entities::flush` is a no-op when the cursor matches the free
list's length. -/
theorem flush_of_cursor_eq (s : Entities) (h : s.freeCursor = (s.pending.length : Int)) :
    s.flush = s := by
  unfold Entities.flush
  rw [if_pos h]

/-- Helper: `Entities::free` on a flushed state and a matching generation. -/
theorem freeE_success (s : Entities) (e : Entity) (m : EntityMeta)
    (hcur : s.freeCursor = (s.pending.length : Int))
    (hm : List.get? s.meta e.index = some m)
    (hgen : m.generation = e.generation) :
    s.freeE e =
      (true,
        ⟨s.meta.set e.index ⟨(m.generation + 1) % U32, true⟩,
          s.idSet.erase e.index, s.pending ++ [e.index],
          ((s.pending ++ [e.index]).length : Int),
          (s.len + (U32 - 1)) % U32⟩) := by
  unfold Entities.freeE
  rw [flush_of_cursor_eq s hcur]
  unfold Entities.freeInner
  rw [hm]
  simp [hgen]

/-- Helper: `Entities::free` fails on an out-of-range index. -/
theorem freeE_oob (s : Entities) (e : Entity)
    (hcur : s.freeCursor = (s.pending.length : Int))
    (hm : List.get? s.meta e.index = none) :
    s.freeE e = (false, s) := by
  unfold Entities.freeE
  rw [flush_of_cursor_eq s hcur]
  unfold Entities.freeInner
  rw [hm]

/-- Helper: `Entities::free` fails on a generation mismatch. -/
theorem freeE_mismatch (s : Entities) (e : Entity) (m : EntityMeta)
    (hcur : s.freeCursor = (s.pending.length : Int))
    (hm : List.get? s.meta e.index = some m)
    (hgen : m.generation ≠ e.generation) :
    s.freeE e = (false, s) := by
  unfold Entities.freeE
  rw [flush_of_cursor_eq s hcur]
  unfold Entities.freeInner
  rw [hm]
  simp [hgen]

/-- C1: the row invariant is claimed for the dense variant and the sparse
storage set alike. On `SparseStorage`, inserting components for entity indices
0 and 1 and then removing index 0 swap-relocates index 1's component into row
0 without repairing its sparse slot (there is no row-to-entity array to do
so): the storage still reports `contains` for index 1 while its recorded row 1
is out of range of the 1-element column, so `get` returns nothing. The same
sequence on `DenseStorage` repairs the slot and keeps all columns in sync. -/
theorem sparse_storage_swap_remove_leaves_stale_row :
    (let s3 : SparseStorage Nat :=
      ((SparseStorage.empty.insert ⟨0, 0⟩ 10 0).insert ⟨1, 0⟩ 20 0).removeAndDrop ⟨0, 0⟩
     s3.contains ⟨1, 0⟩ = true ∧ s3.get ⟨1, 0⟩ = none ∧
       saGet s3.sparse 1 = some 1 ∧ s3.dense.len = 1 ∧ s3.dense.ticks.length = 1) ∧
    (let d3 : DenseStorage Nat :=
      ((DenseStorage.empty.insert ⟨0, 0⟩ 10 0).insert ⟨1, 0⟩ 20 0).removeAndDrop ⟨0, 0⟩
     d3.contains ⟨1, 0⟩ = true ∧ d3.get ⟨1, 0⟩ = some 20 ∧
       saGet d3.sparse 1 = some 0 ∧ d3.entities = [1] ∧ d3.dense.len = 1 ∧
       d3.dense.ticks.length = 1) := by
  decide

/-- C2 counterexample: for a stored tick 0 at current tick
`MAX_CHANGE_AGE + 1` the age exceeds `MAX_CHANGE_AGE`, and `check_tick`
overwrites the tick with `now` itself, not with
`now.wrapping_sub(MAX_CHANGE_AGE) = 1` as the claim states. -/
theorem check_tick_does_not_clamp_to_max_age :
    u32Sub (MAX_CHANGE_AGE + 1) 0 > MAX_CHANGE_AGE ∧
    ChangeTicks.checkTick 0 (MAX_CHANGE_AGE + 1) = MAX_CHANGE_AGE + 1 ∧
    u32Sub (MAX_CHANGE_AGE + 1) MAX_CHANGE_AGE = 1 ∧
    ChangeTicks.checkTick 0 (MAX_CHANGE_AGE + 1) ≠ 1 := by
  decide

/-- C2 (amended): `check_change_ticks(now)` leaves every stored tick with
`now.wrapping_sub(t) ≤ MAX_CHANGE_AGE` unchanged and resets every older tick
to `now` itself (age 0), on both fields of every record of the column. -/
theorem check_change_ticks_resets_old_ticks_to_now (c : Column α) (now i : Nat) :
    List.get? (c.checkChangeTicks now).ticks i =
      (List.get? c.ticks i).map (fun t =>
        ⟨if u32Sub now t.added > MAX_CHANGE_AGE then now else t.added,
          if u32Sub now t.changed > MAX_CHANGE_AGE then now else t.changed⟩) := by
  simp [Column.checkChangeTicks, List.get?_map, ChangeTicks.checkTicks, ChangeTicks.checkTick]

/-- C3 counterexample: with `added = changed = 5`, `last_change_tick = 3` and
`change_tick = 10` the code's `is_added` / `is_changed` both hold, while the
claim's inequality `change_tick - added_tick > change_tick - last_change_tick`
(clamped) is false at the same input. -/
theorem is_added_claim_inequality_reversed :
    ChangeTicks.isAdded ⟨5, 5⟩ 3 10 = true ∧
    ChangeTicks.isChanged ⟨5, 5⟩ 3 10 = true ∧
    ¬ claimTickPredicate 5 3 10 := by
  decide

/-- C3 (amended): the "Added" predicate holds iff
`change_tick - last_change_tick > change_tick - added_tick`, both wrapping and
clamped to `MAX_CHANGE_AGE`; "Changed" is the same with `changed_tick`. -/
theorem is_added_is_changed_characterization (t : ChangeTicks) (lastChangeTick changeTick : Nat) :
    (t.isAdded lastChangeTick changeTick = true ↔
      systemOlderPredicate t.added lastChangeTick changeTick) ∧
    (t.isChanged lastChangeTick changeTick = true ↔
      systemOlderPredicate t.changed lastChangeTick changeTick) := by
  constructor <;>
    simp [ChangeTicks.isAdded, ChangeTicks.isChanged, systemOlderPredicate]

/-- C4: obtaining the inner reference through `DerefMut` sets `changed_tick`
to the wrapper's current change tick (idempotently, touching nothing else),
while `Mut::set(value)` writes the value and marks `changed_tick` exactly when
the new value differs from the stored one. -/
theorem mut_deref_mut_and_set_change_marking {T : Type} [DecidableEq T]
    (m : MutRef T) (v : T) :
    (m.derefMut.ticks.changed = m.changeTick ∧
      m.derefMut.value = m.value ∧
      m.derefMut.ticks.added = m.ticks.added ∧
      m.derefMut.derefMut = m.derefMut) ∧
    ((m.set v).value = v ∧
      (m.set v).ticks =
        (if m.value ≠ v then m.ticks.setChanged m.changeTick else m.ticks)) := by
  refine ⟨⟨rfl, rfl, rfl, rfl⟩, ?_, ?_⟩ <;>
    by_cases h : m.value = v <;>
      simp [MutRef.set, MutRef.markChanged, h]

/-- C4 witness: the characterization applied to a concrete wrapper around a
natural number. -/
theorem mut_deref_mut_and_set_change_marking_witness :
    ((⟨0, ⟨0, 0⟩, 1, 7⟩ : MutRef Nat).derefMut.ticks.changed = 7) ∧
    (((⟨0, ⟨0, 0⟩, 1, 7⟩ : MutRef Nat).set 3).ticks = ⟨0, 7⟩) := by
  have h := mut_deref_mut_and_set_change_marking (⟨0, ⟨0, 0⟩, 1, 7⟩ : MutRef Nat) 3
  exact ⟨h.1.1, by simpa using h.2.2⟩

/-- C5 counterexample: the access built by `add_write(0); read_all()` against
the access built by `add_read(0)`: the code reports the pair compatible (the
`read_all` branch only checks that the other side writes nothing), while the
claim's predicate demands incompatibility because `A.write ∩ B.read = {0}`. -/
theorem is_compatible_read_all_ignores_own_writes :
    AccessS.isCompatible ((AccessS.new.addWrite 0).readAllFn) (AccessS.new.addRead 0) = true ∧
    ¬ claimCompatible ((AccessS.new.addWrite 0).readAllFn) (AccessS.new.addRead 0) := by
  decide

/-- C5 (amended): `is_compatible` is characterized by: a `read_all` on one
side reduces the check to the other side writing nothing; otherwise both
write/read intersections must be empty. `FilteredAccess::compatible` accepts
plain-compatible accesses and otherwise accepts exactly when both
`with ∩ without` intersections are nonempty. -/
theorem access_compatibility_characterization (a b : AccessS) (fa fb : FilteredAccessS) :
    (a.isCompatible b = true ↔ amendedCompatible a b) ∧
    (fa.compatible fb = true ↔
      (fa.access.isCompatible fb.access = true ∨
        ((fa.withSet ∩ fb.withoutSet).Nonempty ∧ (fa.withoutSet ∩ fb.withSet).Nonempty))) := by
  constructor
  · simp only [AccessS.isCompatible, amendedCompatible]
    split_ifs <;> simp [Finset.card_eq_zero]
  · simp only [FilteredAccessS.compatible]
    split_ifs with h <;> simp [h]

/-- C6: despawning the stale generation-0 handle of a reused index returns
`false` (the entity is not live), yet it is not a no-op: the storage removal
runs before the liveness check and is keyed by index alone, so the component
of the live generation-1 entity sharing the index is dropped. -/
theorem despawn_stale_handle_strips_live_components :
    despawnWorldEx.entities.containsE ⟨0, 1⟩ = true ∧
    despawnWorldEx.entities.containsE ⟨0, 0⟩ = false ∧
    despawnWorldEx.storages.map (fun s => s.contains ⟨0, 1⟩) = [true] ∧
    (despawnWorldEx.despawn ⟨0, 0⟩).1 = false ∧
    (despawnWorldEx.despawn ⟨0, 0⟩).2.storages.map (fun s => s.contains ⟨0, 1⟩) = [false] ∧
    (despawnWorldEx.despawn ⟨0, 0⟩).2.entities = despawnWorldEx.entities := by
  decide

/-- C7 counterexample: starting from `alloc(); free(first)` the slot at index
0 is free with stored generation 1; `free` of the forged handle `(0, 1)`
passes the generation-only check, returns `true` (the claim demands `false`
for an already-free slot) and pushes index 0 onto the free list a second
time. -/
theorem free_accepts_bumped_generation_double_push :
    ((Entities.empty.alloc).2.freeE ⟨0, 0⟩).2.containsE ⟨0, 1⟩ = false ∧
    (((Entities.empty.alloc).2.freeE ⟨0, 0⟩).2.freeE ⟨0, 1⟩).1 = true ∧
    (((Entities.empty.alloc).2.freeE ⟨0, 0⟩).2.freeE ⟨0, 1⟩).2.pending = [0, 0] := by
  decide

/-- C7 (amended): with no pending reservations, `free(e)` succeeds exactly
when `e.index` is in range and `e.generation` equals the stored generation —
there is no check of the free flag. On success, the stored generation is
bumped (mod `2^32`), the slot is marked empty, the index leaves the live set
and is pushed onto the free list, even when the slot was already free; on
failure the state is unchanged. -/
theorem free_generation_only_characterization (s : Entities) (e : Entity)
    (hcur : s.freeCursor = (s.pending.length : Int)) :
    ((s.freeE e).1 = true ↔
      ∃ m, List.get? s.meta e.index = some m ∧ m.generation = e.generation) ∧
    (∀ m, List.get? s.meta e.index = some m → m.generation = e.generation →
      (s.freeE e).2 =
        ⟨s.meta.set e.index ⟨(m.generation + 1) % U32, true⟩,
          s.idSet.erase e.index, s.pending ++ [e.index],
          ((s.pending ++ [e.index]).length : Int),
          (s.len + (U32 - 1)) % U32⟩) ∧
    ((s.freeE e).1 = false → (s.freeE e).2 = s) := by
  refine ⟨⟨?_, ?_⟩, ?_, ?_⟩
  · intro h
    cases hm : List.get? s.meta e.index with
    | none =>
      rw [freeE_oob s e hcur hm] at h
      simp at h
    | some m =>
      by_cases hg : m.generation = e.generation
      · exact ⟨m, rfl, hg⟩
      · rw [freeE_mismatch s e m hcur hm hg] at h
        simp at h
  · rintro ⟨m, hm, hg⟩
    rw [freeE_success s e m hcur hm hg]
  · intro m hm hg
    rw [freeE_success s e m hcur hm hg]
  · intro h
    cases hm : List.get? s.meta e.index with
    | none =>
      rw [freeE_oob s e hcur hm]
    | some m =>
      by_cases hg : m.generation = e.generation
      · rw [freeE_success s e m hcur hm hg] at h
        simp at h
      · rw [freeE_mismatch s e m hcur hm hg]

/-- C7 witness: the characterization applied to the state whose slot 0 is
already free with stored generation 1 — the forged handle `(0, 1)` is
accepted and index 0 is pushed onto the free list a second time. -/
theorem free_generation_only_witness :
    ((⟨[⟨1, true⟩], ∅, [0], 1, 0⟩ : Entities).freeE ⟨0, 1⟩).1 = true ∧
    ((⟨[⟨1, true⟩], ∅, [0], 1, 0⟩ : Entities).freeE ⟨0, 1⟩).2.pending = [0, 0] := by
  have h := free_generation_only_characterization
    (⟨[⟨1, true⟩], ∅, [0], 1, 0⟩ : Entities) ⟨0, 1⟩ (by decide)
  refine ⟨h.1.mpr ⟨⟨1, true⟩, by decide, rfl⟩, ?_⟩
  rw [h.2.1 ⟨1, true⟩ (by decide) rfl]
  rfl

/-- C8: for a live entity `e` in a flushed allocator state whose generation
does not overflow, `free(e)` succeeds and the next `alloc()` returns the
entity with the same index and generation `e.generation + 1`. -/
theorem free_then_alloc_reuses_index_with_bumped_generation
    (s : Entities) (e : Entity)
    (hcur : s.freeCursor = (s.pending.length : Int))
    (hlive : s.containsE e = true)
    (hov : e.generation + 1 < U32) :
    (s.freeE e).1 = true ∧
    ((s.freeE e).2.alloc).1 = ⟨e.index, e.generation + 1⟩ := by
  unfold Entities.containsE at hlive
  cases hm : List.get? s.meta e.index with
  | none =>
    rw [hm] at hlive
    simp at hlive
  | some m =>
    rw [hm] at hlive
    simp at hlive
    obtain ⟨hg, _⟩ := hlive
    have hlt : e.index < s.meta.length := (List.get?_eq_some.mp hm).1
    rw [freeE_success s e m hcur hm hg]
    refine ⟨rfl, ?_⟩
    unfold Entities.alloc
    rw [flush_of_cursor_eq _ rfl]
    unfold Entities.allocInner
    simp only [List.getLast?_concat]
    rw [get?_set_self s.meta e.index ⟨(m.generation + 1) % U32, true⟩ hlt]
    simp [hg, Nat.mod_eq_of_lt hov]

/-- C8 witness: the round trip on the state produced by one allocation from
the empty allocator. -/
theorem free_then_alloc_witness :
    ((Entities.empty.alloc).2.freeE ⟨0, 0⟩).1 = true ∧
    (((Entities.empty.alloc).2.freeE ⟨0, 0⟩).2.alloc).1 = ⟨0, 1⟩ := by
  have h := free_then_alloc_reuses_index_with_bumped_generation
    (Entities.empty.alloc).2 ⟨0, 0⟩ (by decide) (by decide) (by decide)
  exact h

/-- Helper: membership in a left fold of intersections. -/
theorem mem_foldl_inter (sIds : Nat → Finset Nat) (l : List Nat)
    (init : Finset Nat) (x : Nat) :
    x ∈ l.foldl (fun acc i => acc ∩ sIds i) init ↔
      x ∈ init ∧ ∀ i ∈ l, x ∈ sIds i := by
  induction l generalizing init with
  | nil => simp
  | cons a t ih => simp [ih, Finset.mem_inter, and_assoc]

/-- Helper: membership in a left fold of set differences. -/
theorem mem_foldl_sdiff (sIds : Nat → Finset Nat) (l : List Nat)
    (init : Finset Nat) (x : Nat) :
    x ∈ l.foldl (fun acc i => acc \ sIds i) init ↔
      x ∈ init ∧ ∀ i ∈ l, x ∉ sIds i := by
  induction l generalizing init with
  | nil => simp
  | cons a t ih => simp [ih, Finset.mem_sdiff, and_assoc]

/-- C9: `get_entities` returns exactly the set obtained by intersecting the
entity-id sets of all `with` components — seeded from the world's live-entity
set when the `with` set is empty — and then subtracting the entity-id set of
every `without` component. -/
theorem get_entities_intersection_difference (fa : FilteredAccessS)
    (sIds : Nat → Finset Nat) (live : Finset Nat) (x : Nat) :
    x ∈ getEntities fa sIds live ↔
      ((if fa.withSet = ∅ then x ∈ live else ∀ i ∈ fa.withSet, x ∈ sIds i) ∧
        ∀ i ∈ fa.withoutSet, x ∉ sIds i) := by
  unfold getEntities
  cases h : fa.withSet.sort (· ≤ ·) with
  | nil =>
    have hempty : fa.withSet = ∅ := by
      apply Finset.eq_empty_iff_forall_not_mem.mpr
      intro i hi
      have hmem : i ∈ fa.withSet.sort (· ≤ ·) := (Finset.mem_sort _).mpr hi
      rw [h] at hmem
      exact absurd hmem (List.not_mem_nil i)
    simp [hempty, mem_foldl_sdiff]
  | cons i0 rest =>
    have hi0 : i0 ∈ fa.withSet :=
      (Finset.mem_sort _).mp (h ▸ List.mem_cons_self i0 rest)
    have hne : ¬ fa.withSet = ∅ := Finset.ne_empty_of_mem hi0
    have hiff : ∀ j, j ∈ fa.withSet ↔ j ∈ (i0 :: rest) := by
      intro j
      rw [← h]
      exact (Finset.mem_sort _).symm
    have hforall : (x ∈ sIds i0 ∧ ∀ i ∈ rest, x ∈ sIds i) ↔
        ∀ i ∈ fa.withSet, x ∈ sIds i := by
      constructor
      · rintro ⟨ha, hb⟩ i hi
        rcases List.mem_cons.mp ((hiff i).mp hi) with h0 | hr
        · rw [h0]; exact ha
        · exact hb i hr
      · intro hall
        exact ⟨hall i0 hi0,
          fun i hi => hall i ((hiff i).mpr (List.mem_cons_of_mem i0 hi))⟩
    simp only [mem_foldl_sdiff, mem_foldl_inter, if_neg hne, Finset.mem_sort]
    rw [hforall]

/-- C10: `Events::update()` moves buffer `b` into `a`, leaves `b` cleared
with `start_event_count` set to the current `event_count`, and keeps the
count; consequently an event sent before two consecutive updates has left
both buffers, so any reader's iteration yields nothing. -/
theorem events_update_swap_and_two_frame_retention {E : Type} :
    (∀ ev : EventsS E,
      (ev.update).eventsA = ev.eventsB ∧
      (ev.update).eventsB.events = [] ∧
      (ev.update).eventsB.startEventCount = ev.eventCount ∧
      (ev.update).eventCount = ev.eventCount) ∧
    (∀ (ev : EventsS E) (e : E) (last : Nat),
      readerIter last (((ev.send e).update).update) = []) := by
  constructor
  · intro ev
    exact ⟨rfl, rfl, rfl, rfl⟩
  · intro ev e last
    simp [EventsS.send, EventsS.update, readerIter]

end Shiv
